import Mathlib

/-!
Verification of the observability bootstrap (`otel.go`) and dice-roll
service of the roll-dice repository, via a shallow embedding in Lean.

Go error values are modelled as lists of messages: the nil error is the
empty list, and `errors.Join` concatenates the message lists of its
arguments (it yields nil exactly when every argument is nil, and keeps
every underlying failure inspectable).
-/

/-- A Go `error` value: `[]` is the nil error, a non-empty list is a
non-nil (possibly joined) error. -/
abbrev GoErr := List String

/-- The nil Go error. -/
def goNil : GoErr := []

/-- Model of `errors.Join(a, b)`: nil arguments are dropped, the rest are
combined, so the result is nil exactly when both arguments are nil. -/
def errorsJoin (a b : GoErr) : GoErr := a ++ b

/-- Identifiers for the cleanup procedures that `setupOTelSDK` appends to
`shutdownFuncs`: `tracerProvider.Shutdown` and `meterProvider.Shutdown`. -/
inductive CleanupId where
  | tracerProviderShutdown
  | meterProviderShutdown
deriving DecidableEq, Repr

/-- Environment describing, for each cleanup procedure, the error it
returns when invoked (nil when it succeeds). -/
abbrev CleanupErrs := CleanupId → GoErr

/-- The loop body of the `shutdown` closure in `setupOTelSDK`
(otel.go lines 28-35): iterate over the registered cleanup functions,
invoking each one and joining its error into the accumulator.  The second
component records the cleanups invoked, in order. -/
def shutdownLoop (cleanupErr : CleanupErrs) (acc : GoErr) :
    List CleanupId → GoErr × List CleanupId
  | [] => (acc, [])
  | f :: fs =>
    let rest := shutdownLoop cleanupErr (errorsJoin acc (cleanupErr f)) fs
    (rest.1, f :: rest.2)

/-- Result of one invocation of the `shutdown` closure: the joined error
it returns, the cleanups it invoked, and the registry contents afterwards
(the closure sets `shutdownFuncs = nil` before returning). -/
structure ShutdownCall where
  err : GoErr
  invoked : List CleanupId
  registryAfter : List CleanupId
deriving DecidableEq, Repr

/-- One invocation of the `shutdown` closure of `setupOTelSDK` on a given
registry state (otel.go lines 28-35): every registered cleanup is invoked
in order, the errors are joined, and the registry is cleared. -/
def runShutdown (cleanupErr : CleanupErrs) (registry : List CleanupId) :
    ShutdownCall :=
  let r := shutdownLoop cleanupErr goNil registry
  { err := r.1, invoked := r.2, registryAfter := [] }

/-- An OpenTelemetry resource: a schema URL together with a set of
key-value attributes (modelled as an association list). -/
structure Resource where
  schemaUrl : String
  attrs : List (String × String)
deriving DecidableEq, Repr

/-- The semantic-convention schema URL imported by otel.go
(`semconv "go.opentelemetry.io/otel/semconv/v1.21.0"`). -/
def semconvSchemaURL : String := "https://opentelemetry.io/schemas/1.21.0"

/-- The standard semantic-convention attribute key for the service name
(`semconv.ServiceName`). -/
def serviceNameKey : String := "service.name"

/-- The standard semantic-convention attribute key for the service version
(`semconv.ServiceVersion`). -/
def serviceVersionKey : String := "service.version"

/-- Attribute-set merge used by `resource.Merge`: attributes of the second
resource overwrite duplicate keys of the first. -/
def mergeAttrs (a b : List (String × String)) : List (String × String) :=
  a.filter (fun p => b.all (fun q => q.1 ≠ p.1)) ++ b

/-- Model of the vendored `resource.Merge(a, b)`: the attribute sets are
combined with the updating resource taking precedence; a conflict between
two distinct non-empty schema URLs is an error. -/
def Resource.merge (a b : Resource) : Except GoErr Resource :=
  if a.schemaUrl = "" then Except.ok ⟨b.schemaUrl, mergeAttrs a.attrs b.attrs⟩
  else if b.schemaUrl = "" ∨ b.schemaUrl = a.schemaUrl then
    Except.ok ⟨a.schemaUrl, mergeAttrs a.attrs b.attrs⟩
  else Except.error ["cannot merge resource due to conflicting Schema URL"]

/-- Model of `newResource` (otel.go lines 76-82): merge the process-default
resource with a resource holding exactly the two service-identity
attributes under the standard semantic-convention keys.  The
process-default resource is host dependent and is passed as a
parameter. -/
def newResource (defaultRes : Resource) (serviceName serviceVersion : String) :
    Except GoErr Resource :=
  defaultRes.merge
    ⟨semconvSchemaURL,
      [(serviceNameKey, serviceName), (serviceVersionKey, serviceVersion)]⟩

/-- The individual text-map propagators combined by `newPropagator`. -/
inductive PropagatorPart where
  | traceContext
  | baggage
deriving DecidableEq, Repr

/-- Model of `newPropagator` (otel.go lines 84-89): a composite text-map propagator
of the trace-context format followed by the baggage format. -/
def newPropagator : List PropagatorPart :=
  [PropagatorPart.traceContext, PropagatorPart.baggage]

/-- An opaque handle for a constructed OTLP-over-HTTP span exporter. -/
structure Exporter where
  id : Nat
deriving DecidableEq, Repr

/-- A constructed trace provider: the exporter and batch timeout (in
milliseconds) of its batching span processor, and the resource it is
bound to. -/
structure TracerProvider where
  batchExporter : Exporter
  batchTimeoutMs : Nat
  res : Resource
deriving DecidableEq, Repr

/-- The library default batch timeout for the batching span processor
(5 seconds), which otel.go overrides. -/
def libraryDefaultBatchTimeoutMs : Nat := 5000

/-- Model of `newTraceProvider` (otel.go lines 104-120): a tracer provider with a
batcher over the given exporter, batch timeout set to one second, bound to
the given resource.  The returned error is always nil. -/
def newTraceProvider (res : Resource) (exporter : Exporter) :
    TracerProvider × GoErr :=
  ({ batchExporter := exporter, batchTimeoutMs := 1000, res := res }, goNil)

/-- An opaque handle for a metric reader (none is ever constructed by this
repository). -/
abbrev MetricReader := Nat

/-- A constructed meter provider: the resource it is bound to and its
attached metric readers. -/
structure MeterProvider where
  res : Resource
  readers : List MetricReader
deriving DecidableEq, Repr

/-- Model of `newMeterProvider` (otel.go lines 122-136): a meter provider bound to
the given resource with no metric reader attached (the periodic-reader
option is commented out in the source).  The returned error is always
nil. -/
def newMeterProvider (res : Resource) : MeterProvider × GoErr :=
  ({ res := res, readers := [] }, goNil)

/-- Information carried by a Go panic raised by `newExporter`: the message
written to the log just before panicking, and the error panicked with. -/
structure PanicInfo where
  logged : String
  panicErr : GoErr
deriving DecidableEq, Repr

/-- Model of `newExporter` (otel.go lines 91-102): attempt to construct the
OTLP-over-HTTP exporter.  On failure it logs the error and panics; on
success it returns the exporter with a nil error.  The outcome of the
vendored `otlptracehttp.New` call is environment dependent and is passed
as a parameter. -/
def newExporter (libResult : Except GoErr Exporter) :
    Except PanicInfo (Exporter × GoErr) :=
  match libResult with
  | Except.ok e => Except.ok (e, goNil)
  | Except.error err =>
    Except.error
      { logged := "Error sending traces " ++ String.intercalate "; " err,
        panicErr := err }

/-- The process-wide OpenTelemetry global state mutated by
`otel.SetTextMapPropagator`, `otel.SetTracerProvider` and
`otel.SetMeterProvider`. -/
structure Globals where
  textMapPropagator : Option (List PropagatorPart)
  tracerProvider : Option TracerProvider
  meterProvider : Option MeterProvider
deriving DecidableEq, Repr

/-- The outcome of a non-panicking `setupOTelSDK` call: the returned
error, the final contents of `shutdownFuncs` captured by the returned
shutdown closure, the process-wide globals afterwards, and the cleanups
already invoked inside `setupOTelSDK` itself (by `handleErr`). -/
structure SetupResult where
  err : GoErr
  registry : List CleanupId
  globals : Globals
  invoked : List CleanupId
deriving DecidableEq, Repr

/-- The control flow of `setupOTelSDK` (otel.go lines 22-74),
parameterized over the outcomes of the calls it makes: the result of
`newResource`, the result of the vendored exporter constructor inside
`newExporter`, the provider constructors, and the errors the provider
shutdown methods would return.  Transcribed step by step:
resource (on error: `handleErr` joins the error with a shutdown over the
empty registry and returns); install the composite propagator; construct
the exporter (a failure panics inside `newExporter`, its error return is
discarded at the call site); construct the trace provider (on error:
`handleErr` over the still-empty registry); register its shutdown and
install it globally; construct the meter provider (on error: `handleErr`
over the registry holding the tracer-provider shutdown); register its
shutdown and install it globally. -/
def setupOTelSDKWith (resCall : Except GoErr Resource)
    (exporterLibResult : Except GoErr Exporter)
    (tpCall : Resource → Exporter → TracerProvider × GoErr)
    (mpCall : Resource → MeterProvider × GoErr)
    (cleanupErr : CleanupErrs) (g : Globals) :
    Except PanicInfo SetupResult :=
  match resCall with
  | Except.error e =>
    let sc := runShutdown cleanupErr []
    Except.ok { err := errorsJoin e sc.err, registry := sc.registryAfter,
                globals := g, invoked := sc.invoked }
  | Except.ok res =>
    let g1 : Globals := { g with textMapPropagator := some newPropagator }
    match newExporter exporterLibResult with
    | Except.error p => Except.error p
    | Except.ok (exporter, _) =>
      let tp := (tpCall res exporter).1
      let tpErr := (tpCall res exporter).2
      if tpErr ≠ goNil then
        let sc := runShutdown cleanupErr []
        Except.ok { err := errorsJoin tpErr sc.err,
                    registry := sc.registryAfter,
                    globals := g1, invoked := sc.invoked }
      else
        let reg1 := [CleanupId.tracerProviderShutdown]
        let g2 : Globals := { g1 with tracerProvider := some tp }
        let mp := (mpCall res).1
        let mpErr := (mpCall res).2
        if mpErr ≠ goNil then
          let sc := runShutdown cleanupErr reg1
          Except.ok { err := errorsJoin mpErr sc.err,
                      registry := sc.registryAfter,
                      globals := g2, invoked := sc.invoked }
        else
          let reg2 := reg1 ++ [CleanupId.meterProviderShutdown]
          let g3 : Globals := { g2 with meterProvider := some mp }
          Except.ok { err := goNil, registry := reg2, globals := g3,
                      invoked := [] }

/-- Model of `setupOTelSDK` with the concrete constructors of otel.go plugged in:
`newResource` over the process-default resource of the host, `newTraceProvider`
and `newMeterProvider` (which never return a non-nil error).  Only the
outcome of the vendored exporter constructor and the behaviour of the
provider shutdown methods remain environment parameters. -/
def setupOTelSDK (defaultRes : Resource) (serviceName serviceVersion : String)
    (exporterLibResult : Except GoErr Exporter) (cleanupErr : CleanupErrs)
    (g : Globals) : Except PanicInfo SetupResult :=
  setupOTelSDKWith (newResource defaultRes serviceName serviceVersion)
    exporterLibResult newTraceProvider newMeterProvider cleanupErr g

/-- Look up the value stored under a key in an attribute list. -/
def lookupAttr (k : String) (attrs : List (String × String)) : Option String :=
  (attrs.find? (fun p => p.1 = k)).map Prod.snd

/-- An HTTP response: status code and plain-text body. -/
structure HttpResponse where
  status : Nat
  body : String
deriving DecidableEq, Repr

/-- Modelled from the spec: the dice-roll handler of rolldice.go, a source
file the Dockerfile copies into the build but which is absent from the
repository snapshot.  Per the spec it generates a pseudo-random integer
uniformly distributed over the inclusive range from one to six and returns
HTTP status 200 with the decimal string of the roll as the plain-text
body.  The pseudo-random source is modelled as a natural-number input
reduced modulo six. -/
def rolldice (randomValue : Nat) : HttpResponse :=
  { status := 200, body := toString (randomValue % 6 + 1) }

/-- The response-body pattern from the spec: exactly one character, and
that character is a digit between one and six. -/
def matchesDigitOneToSix (s : String) : Bool :=
  match s.data with
  | [c] => '1' ≤ c && c ≤ '6'
  | _ => false

/-- A sample process-default resource with an empty schema URL and one
process-default attribute, used to instantiate the theorems below. -/
def sampleDefault : Resource :=
  ⟨"", [("telemetry.sdk.name", "opentelemetry")]⟩

/-- A sample process-default resource whose schema URL conflicts with the
semantic-convention schema URL used by otel.go. -/
def conflictingDefault : Resource :=
  ⟨"https://opentelemetry.io/schemas/1.4.0", []⟩

/-- The empty process-wide global telemetry state. -/
def emptyGlobals : Globals := ⟨none, none, none⟩

/-- Sample cleanup behaviour where both provider shutdowns fail. -/
def failingCleanups : CleanupErrs := fun c =>
  match c with
  | CleanupId.tracerProviderShutdown => ["tracer provider shutdown failed"]
  | CleanupId.meterProviderShutdown => ["meter provider shutdown failed"]

/-- Sample cleanup behaviour where every shutdown succeeds. -/
def okCleanups : CleanupErrs := fun _ => goNil

/-- A sample trace-provider constructor outcome that fails, for
instantiating the failure-path theorems. -/
def failTpCall : Resource → Exporter → TracerProvider × GoErr :=
  fun res e => (⟨e, 1000, res⟩, ["trace provider construction failed"])

/-- A sample meter-provider constructor outcome that fails. -/
def failMpCall : Resource → MeterProvider × GoErr :=
  fun res => (⟨res, []⟩, ["meter provider construction failed"])

/-- The resource `newResource` produces from `sampleDefault` with service
name rolldice and service version 1.0. -/
def sampleRes : Resource :=
  ⟨semconvSchemaURL,
    [("telemetry.sdk.name", "opentelemetry"),
     (serviceNameKey, "rolldice"), (serviceVersionKey, "1.0")]⟩

/-- The result of a successful `setupOTelSDK` run over the sample
inputs. -/
def sampleOkResult : SetupResult :=
  { err := goNil,
    registry := [CleanupId.tracerProviderShutdown,
                 CleanupId.meterProviderShutdown],
    globals := { textMapPropagator := some newPropagator,
                 tracerProvider := some ⟨⟨0⟩, 1000, sampleRes⟩,
                 meterProvider := some ⟨sampleRes, []⟩ },
    invoked := [] }

/-- The invocation trace of the shutdown loop is exactly the registry it
was started on, regardless of which cleanups fail. -/
theorem shutdownLoop_invoked (cleanupErr : CleanupErrs) (acc : GoErr)
    (registry : List CleanupId) :
    (shutdownLoop cleanupErr acc registry).2 = registry := by
  induction registry generalizing acc with
  | nil => rfl
  | cons f fs ih => simp [shutdownLoop, ih]

/-- The error returned by the shutdown loop is the accumulator joined with
the errors of all registered cleanups, in order. -/
theorem shutdownLoop_err (cleanupErr : CleanupErrs) (acc : GoErr)
    (registry : List CleanupId) :
    (shutdownLoop cleanupErr acc registry).1 =
      acc ++ (registry.map cleanupErr).flatten := by
  induction registry generalizing acc with
  | nil => simp [shutdownLoop]
  | cons f fs ih => simp [shutdownLoop, errorsJoin, ih]

example : newResource sampleDefault "rolldice" "1.0" = Except.ok sampleRes := by
  rfl

example : setupOTelSDK sampleDefault "rolldice" "1.0" (Except.ok ⟨0⟩)
    failingCleanups emptyGlobals = Except.ok sampleOkResult := by
  rfl

/-- Claim C1: the shutdown procedure returned by `setupOTelSDK`, when
invoked, calls every cleanup procedure registered during bootstrap and
returns the join of all their errors; every registered cleanup is
attempted even when an earlier one returns an error, and the errors are
combined rather than the first one short-circuiting the rest. -/
theorem shutdown_invokes_all_and_joins (defaultRes : Resource)
    (sn sv : String) (expR : Except GoErr Exporter)
    (cleanupErr : CleanupErrs) (g : Globals) (r : SetupResult)
    (h : setupOTelSDK defaultRes sn sv expR cleanupErr g = Except.ok r) :
    (runShutdown cleanupErr r.registry).invoked = r.registry ∧
    (runShutdown cleanupErr r.registry).err =
      (r.registry.map cleanupErr).flatten := by
  constructor
  · exact shutdownLoop_invoked cleanupErr goNil r.registry
  · have := shutdownLoop_err cleanupErr goNil r.registry
    simpa [runShutdown, goNil] using this

/-- Witness for C1 at concrete inputs: a successful bootstrap registers
both provider shutdowns, and a shutdown invocation where both cleanups
fail still invokes both and returns both errors joined. -/
theorem shutdown_invokes_all_and_joins_witness :
    (runShutdown failingCleanups sampleOkResult.registry).invoked =
      sampleOkResult.registry ∧
    (runShutdown failingCleanups sampleOkResult.registry).err =
      (sampleOkResult.registry.map failingCleanups).flatten :=
  shutdown_invokes_all_and_joins sampleDefault "rolldice" "1.0"
    (Except.ok ⟨0⟩) failingCleanups emptyGlobals sampleOkResult rfl

/-- Claim C2: invoking the shutdown procedure a second time after a first
invocation is a no-op: the registry is cleared by the first call, so the
second call invokes nothing and returns the nil error, and across both
calls the cleanups invoked are exactly those registered (none twice). -/
theorem shutdown_second_call_noop (cleanupErr : CleanupErrs)
    (registry : List CleanupId) :
    (runShutdown cleanupErr
        (runShutdown cleanupErr registry).registryAfter).err = goNil ∧
    (runShutdown cleanupErr
        (runShutdown cleanupErr registry).registryAfter).invoked = [] ∧
    (runShutdown cleanupErr registry).invoked ++
      (runShutdown cleanupErr
        (runShutdown cleanupErr registry).registryAfter).invoked =
      registry := by
  refine ⟨rfl, rfl, ?_⟩
  have := shutdownLoop_invoked cleanupErr goNil registry
  simp [runShutdown, shutdownLoop, this]

/-- Claim C3: if a bootstrap step after resource construction fails
(trace-provider or meter-provider construction), `setupOTelSDK`
immediately invokes the aggregate shutdown procedure over the cleanups
registered so far (none for a trace-provider failure, the tracer-provider
shutdown for a meter-provider failure), joins the error of that shutdown
call with the original failure, and returns the combined error. -/
theorem setup_post_resource_failure_shuts_down (res : Resource)
    (exp : Exporter) (tpCall : Resource → Exporter → TracerProvider × GoErr)
    (mpCall : Resource → MeterProvider × GoErr)
    (cleanupErr : CleanupErrs) (g : Globals) :
    ((tpCall res exp).2 ≠ goNil →
      setupOTelSDKWith (Except.ok res) (Except.ok exp) tpCall mpCall
          cleanupErr g =
        Except.ok
          { err := errorsJoin (tpCall res exp).2 (runShutdown cleanupErr []).err,
            registry := (runShutdown cleanupErr []).registryAfter,
            globals := { g with textMapPropagator := some newPropagator },
            invoked := (runShutdown cleanupErr []).invoked }) ∧
    ((tpCall res exp).2 = goNil → (mpCall res).2 ≠ goNil →
      setupOTelSDKWith (Except.ok res) (Except.ok exp) tpCall mpCall
          cleanupErr g =
        Except.ok
          { err := errorsJoin (mpCall res).2
              (runShutdown cleanupErr [CleanupId.tracerProviderShutdown]).err,
            registry := (runShutdown cleanupErr
              [CleanupId.tracerProviderShutdown]).registryAfter,
            globals := { g with
                         textMapPropagator := some newPropagator
                         tracerProvider := some (tpCall res exp).1 },
            invoked := (runShutdown cleanupErr
              [CleanupId.tracerProviderShutdown]).invoked }) := by
  constructor
  · intro htp
    simp [setupOTelSDKWith, newExporter, htp]
  · intro htp hmp
    simp [setupOTelSDKWith, newExporter, htp, hmp]

/-- Witness for C3 at concrete inputs, one instance per failing step:
a failing trace-provider construction returns its error joined with an
empty shutdown, and a failing meter-provider construction returns its
error joined with the error of shutting the tracer provider down. -/
theorem setup_post_resource_failure_shuts_down_witness :
    setupOTelSDKWith (Except.ok sampleRes) (Except.ok ⟨0⟩) failTpCall
        newMeterProvider failingCleanups emptyGlobals =
      Except.ok
        { err := errorsJoin (failTpCall sampleRes ⟨0⟩).2
            (runShutdown failingCleanups []).err,
          registry := (runShutdown failingCleanups []).registryAfter,
          globals := { emptyGlobals with
                       textMapPropagator := some newPropagator },
          invoked := (runShutdown failingCleanups []).invoked } ∧
    setupOTelSDKWith (Except.ok sampleRes) (Except.ok ⟨0⟩) newTraceProvider
        failMpCall failingCleanups emptyGlobals =
      Except.ok
        { err := errorsJoin (failMpCall sampleRes).2
            (runShutdown failingCleanups
              [CleanupId.tracerProviderShutdown]).err,
          registry := (runShutdown failingCleanups
            [CleanupId.tracerProviderShutdown]).registryAfter,
          globals := { emptyGlobals with
                       textMapPropagator := some newPropagator
                       tracerProvider :=
                         some (newTraceProvider sampleRes ⟨0⟩).1 },
          invoked := (runShutdown failingCleanups
            [CleanupId.tracerProviderShutdown]).invoked } :=
  ⟨(setup_post_resource_failure_shuts_down sampleRes ⟨0⟩ failTpCall
      newMeterProvider failingCleanups emptyGlobals).1 (by simp [failTpCall, goNil]),
   (setup_post_resource_failure_shuts_down sampleRes ⟨0⟩ newTraceProvider
      failMpCall failingCleanups emptyGlobals).2 rfl (by simp [failMpCall, goNil])⟩

/-- Claim C10: once the resource step has succeeded the composite
text-map propagator (trace context plus baggage) is installed, and a
later trace-provider or meter-provider construction failure leaves it
installed as the process-wide default: every non-panicking outcome of
`setupOTelSDKWith` reached on a failing provider step carries the
propagator unchanged. -/
theorem failure_keeps_propagator (res : Resource) (exp : Exporter)
    (tpCall : Resource → Exporter → TracerProvider × GoErr)
    (mpCall : Resource → MeterProvider × GoErr)
    (cleanupErr : CleanupErrs) (g : Globals) (r : SetupResult)
    (hfail : (tpCall res exp).2 ≠ goNil ∨ (mpCall res).2 ≠ goNil)
    (h : setupOTelSDKWith (Except.ok res) (Except.ok exp) tpCall mpCall
        cleanupErr g = Except.ok r) :
    r.globals.textMapPropagator = some newPropagator := by
  by_cases htp : (tpCall res exp).2 = goNil
  · by_cases hmp : (mpCall res).2 = goNil
    · simp [setupOTelSDKWith, newExporter, htp, hmp] at h
      simp [← h]
    · simp [setupOTelSDKWith, newExporter, htp, hmp] at h
      simp [← h]
  · simp [setupOTelSDKWith, newExporter, htp] at h
    simp [← h]

/-- Witness for C10: with a failing meter-provider construction at
concrete inputs, the returned globals still hold the composite
propagator. -/
theorem failure_keeps_propagator_witness :
    ({ err := errorsJoin (failMpCall sampleRes).2
         (runShutdown okCleanups [CleanupId.tracerProviderShutdown]).err,
       registry := [], globals := { emptyGlobals with
         textMapPropagator := some newPropagator
         tracerProvider := some (newTraceProvider sampleRes ⟨0⟩).1 },
       invoked := [CleanupId.tracerProviderShutdown] } :
      SetupResult).globals.textMapPropagator = some newPropagator :=
  failure_keeps_propagator sampleRes ⟨0⟩ newTraceProvider failMpCall
    okCleanups emptyGlobals _ (Or.inr (by simp [failMpCall, goNil])) rfl

/-- Claim C4: when span-exporter construction fails, the bootstrap does
not return the error to its caller: `newExporter` logs the failure and
panics, so `setupOTelSDK` ends in a panic (process termination) carrying
the logged message, rather than in a returned error value as every other
bootstrap failure does. -/
theorem exporter_failure_panics (defaultRes : Resource) (sn sv : String)
    (e : GoErr) (cleanupErr : CleanupErrs) (g : Globals) (res : Resource)
    (hres : newResource defaultRes sn sv = Except.ok res) :
    setupOTelSDK defaultRes sn sv (Except.error e) cleanupErr g =
      Except.error
        { logged := "Error sending traces " ++ String.intercalate "; " e,
          panicErr := e } ∧
    ∀ r : SetupResult,
      setupOTelSDK defaultRes sn sv (Except.error e) cleanupErr g ≠
        Except.ok r := by
  have hmain : setupOTelSDK defaultRes sn sv (Except.error e) cleanupErr g =
      Except.error
        { logged := "Error sending traces " ++ String.intercalate "; " e,
          panicErr := e } := by
    simp [setupOTelSDK, setupOTelSDKWith, hres, newExporter]
  exact ⟨hmain, fun r hr => by rw [hmain] at hr; exact Except.noConfusion hr⟩

/-- Witness for C4: with the sample process-default resource and a
concrete exporter-construction error, the bootstrap panics with the
logged message. -/
theorem exporter_failure_panics_witness :
    (setupOTelSDK sampleDefault "rolldice" "1.0"
        (Except.error ["connection refused"]) okCleanups emptyGlobals =
      Except.error
        { logged := "Error sending traces " ++
            String.intercalate "; " ["connection refused"],
          panicErr := ["connection refused"] }) ∧
    ∀ r : SetupResult,
      setupOTelSDK sampleDefault "rolldice" "1.0"
          (Except.error ["connection refused"]) okCleanups emptyGlobals ≠
        Except.ok r :=
  exporter_failure_panics sampleDefault "rolldice" "1.0"
    ["connection refused"] okCleanups emptyGlobals sampleRes rfl

/-- Claim C9: if bootstrap initialization fails at the resource-merge
step (here: the process-default schema URL conflicts with the
semantic-convention schema URL), `setupOTelSDK` returns a non-nil error
and the process-wide global telemetry state is exactly what it was before
the call: no propagator, tracer provider or meter provider has been
installed or replaced. -/
theorem resource_failure_leaves_globals (d : Resource) (sn sv : String)
    (expR : Except GoErr Exporter) (cleanupErr : CleanupErrs) (g : Globals)
    (h1 : d.schemaUrl ≠ "") (h2 : d.schemaUrl ≠ semconvSchemaURL) :
    ∃ r : SetupResult,
      setupOTelSDK d sn sv expR cleanupErr g = Except.ok r ∧
      r.err ≠ goNil ∧ r.globals = g := by
  have hres : newResource d sn sv =
      Except.error ["cannot merge resource due to conflicting Schema URL"] := by
    have h2s : ¬ semconvSchemaURL = d.schemaUrl := fun h => h2 h.symm
    have hurl : ¬ semconvSchemaURL = "" := by simp [semconvSchemaURL]
    simp [newResource, Resource.merge, h1, h2s, hurl]
  refine ⟨{ err := errorsJoin
              ["cannot merge resource due to conflicting Schema URL"]
              (runShutdown cleanupErr []).err
            registry := (runShutdown cleanupErr []).registryAfter
            globals := g
            invoked := (runShutdown cleanupErr []).invoked }, ?_, ?_, rfl⟩
  · simp [setupOTelSDK, hres, setupOTelSDKWith]
  · simp [errorsJoin, goNil, runShutdown, shutdownLoop]

/-- Witness for C9: with a conflicting process-default schema URL, the
bootstrap returns a non-nil error and leaves the globals untouched. -/
theorem resource_failure_leaves_globals_witness :
    ∃ r : SetupResult,
      setupOTelSDK conflictingDefault "rolldice" "1.0" (Except.ok ⟨0⟩)
          okCleanups emptyGlobals = Except.ok r ∧
      r.err ≠ goNil ∧ r.globals = emptyGlobals :=
  resource_failure_leaves_globals conflictingDefault "rolldice" "1.0"
    (Except.ok ⟨0⟩) okCleanups emptyGlobals
    (by simp [conflictingDefault]) (by simp [conflictingDefault, semconvSchemaURL])

/-- Claim C7: on a successful bootstrap, the trace provider wraps the
span exporter in a batching span processor whose batch timeout is exactly
one second (1000 ms, not the five-second library default), is bound to
the resource descriptor, is installed in the process-wide globals, and
has its shutdown registered in the shutdown registry. -/
theorem traceProvider_config_and_install (d : Resource) (sn sv : String)
    (exp : Exporter) (cleanupErr : CleanupErrs) (g : Globals)
    (res : Resource) (hres : newResource d sn sv = Except.ok res) :
    ∃ r : SetupResult,
      setupOTelSDK d sn sv (Except.ok exp) cleanupErr g = Except.ok r ∧
      r.err = goNil ∧
      r.globals.tracerProvider = some (newTraceProvider res exp).1 ∧
      (newTraceProvider res exp).1.batchExporter = exp ∧
      (newTraceProvider res exp).1.batchTimeoutMs = 1000 ∧
      (newTraceProvider res exp).1.batchTimeoutMs ≠
        libraryDefaultBatchTimeoutMs ∧
      (newTraceProvider res exp).1.res = res ∧
      CleanupId.tracerProviderShutdown ∈ r.registry := by
  refine ⟨{ err := goNil
            registry := [CleanupId.tracerProviderShutdown,
                         CleanupId.meterProviderShutdown]
            globals := { g with
                         textMapPropagator := some newPropagator
                         tracerProvider := some (newTraceProvider res exp).1
                         meterProvider := some (newMeterProvider res).1 }
            invoked := [] }, ?_, rfl, rfl, rfl, rfl, ?_, rfl, ?_⟩
  · simp [setupOTelSDK, hres, setupOTelSDKWith, newExporter,
      newTraceProvider, newMeterProvider, goNil]
  · simp [newTraceProvider, libraryDefaultBatchTimeoutMs]
  · simp

/-- Witness for C7 at the sample inputs. -/
theorem traceProvider_config_and_install_witness :
    ∃ r : SetupResult,
      setupOTelSDK sampleDefault "rolldice" "1.0" (Except.ok ⟨0⟩)
          okCleanups emptyGlobals = Except.ok r ∧
      r.err = goNil ∧
      r.globals.tracerProvider = some (newTraceProvider sampleRes ⟨0⟩).1 ∧
      (newTraceProvider sampleRes ⟨0⟩).1.batchExporter = ⟨0⟩ ∧
      (newTraceProvider sampleRes ⟨0⟩).1.batchTimeoutMs = 1000 ∧
      (newTraceProvider sampleRes ⟨0⟩).1.batchTimeoutMs ≠
        libraryDefaultBatchTimeoutMs ∧
      (newTraceProvider sampleRes ⟨0⟩).1.res = sampleRes ∧
      CleanupId.tracerProviderShutdown ∈ r.registry :=
  traceProvider_config_and_install sampleDefault "rolldice" "1.0" ⟨0⟩
    okCleanups emptyGlobals sampleRes rfl

/-- Claim C8: on a successful bootstrap, the meter provider is bound to
the resource descriptor but has no metric reader attached (so nothing
periodically ships the collected metrics), is installed in the
process-wide globals, and has its shutdown registered in the shutdown
registry. -/
theorem meterProvider_config_and_install (d : Resource) (sn sv : String)
    (exp : Exporter) (cleanupErr : CleanupErrs) (g : Globals)
    (res : Resource) (hres : newResource d sn sv = Except.ok res) :
    ∃ r : SetupResult,
      setupOTelSDK d sn sv (Except.ok exp) cleanupErr g = Except.ok r ∧
      r.err = goNil ∧
      r.globals.meterProvider = some (newMeterProvider res).1 ∧
      (newMeterProvider res).1.readers = [] ∧
      (newMeterProvider res).1.res = res ∧
      CleanupId.meterProviderShutdown ∈ r.registry := by
  refine ⟨{ err := goNil
            registry := [CleanupId.tracerProviderShutdown,
                         CleanupId.meterProviderShutdown]
            globals := { g with
                         textMapPropagator := some newPropagator
                         tracerProvider := some (newTraceProvider res exp).1
                         meterProvider := some (newMeterProvider res).1 }
            invoked := [] }, ?_, rfl, rfl, rfl, rfl, ?_⟩
  · simp [setupOTelSDK, hres, setupOTelSDKWith, newExporter,
      newTraceProvider, newMeterProvider, goNil]
  · simp

/-- Witness for C8 at the sample inputs. -/
theorem meterProvider_config_and_install_witness :
    ∃ r : SetupResult,
      setupOTelSDK sampleDefault "rolldice" "1.0" (Except.ok ⟨0⟩)
          okCleanups emptyGlobals = Except.ok r ∧
      r.err = goNil ∧
      r.globals.meterProvider = some (newMeterProvider sampleRes).1 ∧
      (newMeterProvider sampleRes).1.readers = [] ∧
      (newMeterProvider sampleRes).1.res = sampleRes ∧
      CleanupId.meterProviderShutdown ∈ r.registry :=
  meterProvider_config_and_install sampleDefault "rolldice" "1.0" ⟨0⟩
    okCleanups emptyGlobals sampleRes rfl

/-- Claim C5: for every request (that is, for every value of the
pseudo-random source) the dice-roll handler returns status 200 and a
plain-text body that is the decimal string of an integer in the inclusive
range from one to six, matching the single-digit pattern of the spec. -/
theorem rolldice_returns_digit_one_to_six (randomValue : Nat) :
    (rolldice randomValue).status = 200 ∧
    matchesDigitOneToSix (rolldice randomValue).body = true ∧
    ∃ n : Nat, 1 ≤ n ∧ n ≤ 6 ∧ (rolldice randomValue).body = toString n := by
  have h6 : randomValue % 6 < 6 := Nat.mod_lt _ (by norm_num)
  refine ⟨rfl, ?_, randomValue % 6 + 1, by omega, by omega, rfl⟩
  unfold rolldice
  set m := randomValue % 6 with hm
  interval_cases m <;> decide

/-- Looking up a key in an appended attribute list skips a left part that
does not hold the key. -/
theorem lookupAttr_append (k : String) (b : List (String × String)) :
    ∀ a : List (String × String), (∀ p ∈ a, p.1 ≠ k) →
      lookupAttr k (a ++ b) = lookupAttr k b := by
  intro a
  induction a with
  | nil => intro _; rfl
  | cons p rest ih =>
    intro h
    have hp : p.1 ≠ k := h p (by simp)
    simp only [lookupAttr, List.cons_append, List.find?]
    have hdec : (decide (p.1 = k)) = false := by simp [hp]
    rw [hdec]
    exact ih (fun q hq => h q (by simp [hq]))

/-- Merging an attribute list with the two service-identity attributes:
the two keys resolve to the supplied values, every other attribute of the
left list is preserved, and no attribute beyond those appears. -/
theorem mergeAttrs_service_identity (a : List (String × String))
    (sn sv : String) :
    lookupAttr serviceNameKey
      (mergeAttrs a [(serviceNameKey, sn), (serviceVersionKey, sv)]) =
        some sn ∧
    lookupAttr serviceVersionKey
      (mergeAttrs a [(serviceNameKey, sn), (serviceVersionKey, sv)]) =
        some sv ∧
    (∀ p ∈ a, p.1 ≠ serviceNameKey → p.1 ≠ serviceVersionKey →
      p ∈ mergeAttrs a [(serviceNameKey, sn), (serviceVersionKey, sv)]) ∧
    (∀ p ∈ mergeAttrs a [(serviceNameKey, sn), (serviceVersionKey, sv)],
      p ∈ a ∨ p = (serviceNameKey, sn) ∨ p = (serviceVersionKey, sv)) := by
  have hfilter : ∀ p ∈ a.filter
      (fun p => ([(serviceNameKey, sn), (serviceVersionKey, sv)] :
        List (String × String)).all (fun q => q.1 ≠ p.1)),
      p.1 ≠ serviceNameKey ∧ p.1 ≠ serviceVersionKey := by
    intro p hp
    rw [List.mem_filter] at hp
    have := hp.2
    simp only [List.all_cons, List.all_nil, Bool.and_true,
      Bool.and_eq_true, decide_eq_true_eq] at this
    exact ⟨fun hh => this.1 hh.symm, fun hh => this.2 hh.symm⟩
  refine ⟨?_, ?_, ?_, ?_⟩
  · rw [mergeAttrs, lookupAttr_append _ _ _ (fun p hp => (hfilter p hp).1)]
    simp [lookupAttr, List.find?]
  · rw [mergeAttrs, lookupAttr_append _ _ _ (fun p hp => (hfilter p hp).2)]
    have hne : (decide (serviceNameKey = serviceVersionKey)) = false := by
      simp [serviceNameKey, serviceVersionKey]
    simp only [lookupAttr, List.find?]
    rw [hne]
    simp [List.find?]
  · intro p hp h1 h2
    rw [mergeAttrs]
    apply List.mem_append_left
    rw [List.mem_filter]
    refine ⟨hp, ?_⟩
    simp only [List.all_cons, List.all_nil, Bool.and_true,
      Bool.and_eq_true, decide_eq_true_eq]
    exact ⟨fun hh => h1 hh.symm, fun hh => h2 hh.symm⟩
  · intro p hp
    rw [mergeAttrs, List.mem_append] at hp
    rcases hp with hp | hp
    · exact Or.inl (List.mem_filter.mp hp).1
    · simp only [List.mem_cons, List.not_mem_nil, or_false] at hp
      exact Or.inr hp

/-- Claim C6: for every service name and version, the resource descriptor
built by `newResource`, whenever the merge succeeds, is the merge of the
process-default resource attributes with exactly two attributes: the
service name and the service version under the standard
semantic-convention keys for service identity. -/
theorem newResource_merges_service_identity (d : Resource)
    (sn sv : String) (res : Resource)
    (h : newResource d sn sv = Except.ok res) :
    lookupAttr serviceNameKey res.attrs = some sn ∧
    lookupAttr serviceVersionKey res.attrs = some sv ∧
    (∀ p ∈ d.attrs, p.1 ≠ serviceNameKey → p.1 ≠ serviceVersionKey →
      p ∈ res.attrs) ∧
    (∀ p ∈ res.attrs,
      p ∈ d.attrs ∨ p = (serviceNameKey, sn) ∨ p = (serviceVersionKey, sv)) := by
  have hattrs : res.attrs =
      mergeAttrs d.attrs [(serviceNameKey, sn), (serviceVersionKey, sv)] := by
    unfold newResource Resource.merge at h
    split at h
    · cases h
      rfl
    · split at h
      · cases h
        rfl
      · cases h
  rw [hattrs]
  exact mergeAttrs_service_identity d.attrs sn sv

/-- Witness for C6 at the sample inputs: the merged resource carries the
service name rolldice, the version 1.0, and the process-default
attribute. -/
theorem newResource_merges_service_identity_witness :
    lookupAttr serviceNameKey sampleRes.attrs = some "rolldice" ∧
    lookupAttr serviceVersionKey sampleRes.attrs = some "1.0" ∧
    (∀ p ∈ sampleDefault.attrs, p.1 ≠ serviceNameKey →
      p.1 ≠ serviceVersionKey → p ∈ sampleRes.attrs) ∧
    (∀ p ∈ sampleRes.attrs, p ∈ sampleDefault.attrs ∨
      p = (serviceNameKey, "rolldice") ∨ p = (serviceVersionKey, "1.0")) :=
  newResource_merges_service_identity sampleDefault "rolldice" "1.0"
    sampleRes rfl
